import Mathlib

/-
Verification of the Gestion-Notes Angular front-end (session / guards /
cache / loading / error mapping) against its natural-language specification.
The TypeScript services are shallowly embedded as pure Lean functions:
observable subjects become explicit record fields holding their last pushed
value, `Date.now()` becomes an explicit time parameter, thrown exceptions
become `Option` / explicit result constructors, and JavaScript truthiness is
made explicit where the source relies on it.
-/

namespace GestionNotes

/-! ## Common data model (src/unnamed/part_000, AuthService interfaces) -/

/-- User roles, per the `User` interface: `role: 'student' | 'teacher' | 'admin'`. -/
inductive Role
| student
| teacher
| admin
deriving DecidableEq, Repr

/-- The `User` DTO (fields relevant to session and guards). -/
structure User where
  id : Nat
  username : String
  email : String
  role : Role
  is_active : Bool
deriving DecidableEq, Repr

/-- The `LoginResponse` interface: `{ access_token: string; user: User }`. -/
structure LoginResponse where
  access_token : String
  user : User
deriving DecidableEq, Repr

/-! ## HTTP error shape

`HttpErrorResponse` as consumed by the various `handleError` functions:
`error.error instanceof ErrorEvent` (client-side event with a `.message`),
the HTTP `status`, the server body fields `error.error.error` and
`error.error.message` (absent = `none`), and the top-level `error.message`.
JavaScript truthiness on these string fields (empty string is falsy) is
modelled by `strTruthy`. -/

structure HttpErr where
  isClientEvent : Bool
  clientEventMessage : String
  status : Int
  bodyError : Option String
  bodyMessage : Option String
  message : String
deriving DecidableEq, Repr

/-- JavaScript truthiness of an optional string field: present and nonempty. -/
def strTruthy : Option String → Bool
| some s => !s.isEmpty
| none => false

/-! ## Token codec and session (AuthService, src/unnamed/part_000 lines 826-1121)

`decodeJWT` (base64url split / `atob` / `decodeURIComponent` / `JSON.parse`)
is abstracted as a function `String → Option JWTPayload`: `none` models the
`throw new Error('Token JWT invalide')` path (any malformed token), and a
`JWTPayload` models a successfully parsed payload, whose `exp` field is
`some e` when the payload carries a numeric `exp` claim and `none` when it
lacks one. Time is in seconds (`Date.now() / 1000`), modelled as `Rat`. -/

structure JWTPayload where
  exp : Option Rat
deriving DecidableEq

/-- `AuthService.hasValidToken` (part_000 lines 1013-1024), with the stored
token (`localStorage.getItem(TOKEN_KEY)`) passed explicitly.
`if (!token) return false` rejects both a missing token and the empty
string; a decode failure is caught and mapped to `false`; finally
`payload.exp && payload.exp > currentTime` is falsy when `exp` is absent or
zero, and otherwise compares strictly against the current time. -/
def hasValidToken (decode : String → Option JWTPayload)
    (storedToken : Option String) (now : Rat) : Bool :=
  match storedToken with
  | none => false
  | some token =>
    if token.isEmpty then false
    else
      match decode token with
      | none => false
      | some payload =>
        match payload.exp with
        | none => false
        | some e => decide (e ≠ 0) && decide (e > now)

/-- `AuthService.isAuthenticated` (part_000 lines 899-901): returns
`this.hasValidToken()`. -/
def isAuthenticated (decode : String → Option JWTPayload)
    (storedToken : Option String) (now : Rat) : Bool :=
  hasValidToken decode storedToken now

/-- `AuthService.handleError` (part_000 lines 1055-1078): maps an HTTP
failure to the user-facing message wrapped in the rethrown `Error`. -/
def authHandleError (e : HttpErr) : String :=
  if e.isClientEvent then "Erreur: " ++ e.clientEventMessage
  else if e.status = 401 then "Identifiants invalides"
  else if e.status = 403 then "Accès non autorisé"
  else if e.status = 500 then "Erreur serveur"
  else if strTruthy e.bodyError then e.bodyError.getD ""
  else "Erreur " ++ toString e.status ++ ": " ++ e.message

/-- Session-relevant state of `AuthService`: the two localStorage slots and
the last values pushed on `currentUserSubject` / `isAuthenticatedSubject`. -/
structure AuthState where
  storedToken : Option String
  storedUser : Option User
  currentUser : Option User
  isAuthEmitted : Bool
deriving DecidableEq, Repr

/-- `AuthService.login` (part_000 lines 850-864). The network outcome is the
explicit argument: on success the `tap` stores token and user and pushes the
user and `true` on the subjects, and the response is delivered; on failure
`catchError(this.handleError)` rethrows `Error(message)` and no state
mutation runs. -/
def login (st : AuthState) (outcome : Except HttpErr LoginResponse) :
    AuthState × Except String LoginResponse :=
  match outcome with
  | .ok resp =>
    (⟨some resp.access_token, some resp.user, some resp.user, true⟩, .ok resp)
  | .error e => (st, .error (authHandleError e))

/-! ## Route guards (src/app/services/auth/auth-guard.service.ts and the
functional `authGuard` of src/unnamed/part_000 lines 1128-1147) -/

/-- Observable outcome of one guard invocation: the boolean returned to the
router, the `router.navigate` target if any, and the value written to
`sessionStorage['redirectUrl']` if any. -/
structure GuardResult where
  allowed : Bool
  navigateTo : Option (List String)
  storedRedirectUrl : Option String
deriving DecidableEq, Repr

/-- `AuthGuard.checkAuth` (auth-guard.service.ts lines 58-76), reading the
last value of `isAuthenticated$`. The attempted URL is stored only under
`if (url)`: a missing or empty URL is falsy and skipped. -/
def checkAuth (isAuthStream : Bool) (url : Option String) : GuardResult :=
  if isAuthStream then ⟨true, none, none⟩
  else
    ⟨false, some ["/login"],
      match url with
      | some u => if u.isEmpty then none else some u
      | none => none⟩

/-- The functional `authGuard` (part_000 lines 1128-1147) used by
`app.routes.ts`: deny and navigate to `/login` when unauthenticated or when
the user role is not in the route's `data['roles']` list; it never writes
`sessionStorage`. `expectedRoles.includes(userRole!)` with a null role is
simply `false`. -/
def authGuardRun (isAuth : Bool) (userRole : Option Role)
    (expectedRoles : List Role) : GuardResult :=
  if !isAuth then ⟨false, some ["/login"], none⟩
  else if (match userRole with
           | some r => expectedRoles.contains r
           | none => false) then ⟨true, none, none⟩
  else ⟨false, some ["/login"], none⟩

/-- `AuthService.hasRole` (part_000 lines 929-932): strict equality with
`getUserRole()`. -/
def hasRole (userRole : Option Role) (r : Role) : Bool :=
  userRole == some r

/-- `AuthService.hasAnyRole` (part_000 lines 936-939):
`userRole ? roles.includes(userRole) : false`. -/
def hasAnyRole (userRole : Option Role) (roles : List Role) : Bool :=
  match userRole with
  | some r => roles.contains r
  | none => false

/-- Per-route guard configuration: `route.data['roles']` (an optional array,
possibly empty) and `route.data['role']` (an optional single role). -/
structure RouteData where
  roles : Option (List Role)
  role : Option Role
deriving DecidableEq, Repr

/-- `RoleGuard.handleUnauthorized` (auth-guard.service.ts lines 165-182):
redirect to the role-specific dashboard, or `/unauthorized` when no role. -/
def handleUnauthorized (userRole : Option Role) : GuardResult :=
  ⟨false,
    some (match userRole with
          | some Role.admin => ["/admin/dashboard"]
          | some Role.teacher => ["/teacher/dashboard"]
          | some Role.student => ["/student/dashboard"]
          | none => ["/unauthorized"]),
    none⟩

/-- `RoleGuard.checkRole` (auth-guard.service.ts lines 111-160). Note the
JavaScript details kept faithfully: `!allowedRoles && !requiredRole` is true
only when both are absent (an empty array is truthy); `hasAccess` starts
`false`, is set from `hasAnyRole` only when the list is nonempty, and is
then overwritten by `hasRole(requiredRole)` when a single role is given. -/
def checkRole (isAuthStream : Bool) (currentUser : Option User)
    (data : RouteData) (url : String) : GuardResult :=
  if !isAuthStream then ⟨false, some ["/login"], some url⟩
  else if data.roles = none ∧ data.role = none then ⟨true, none, none⟩
  else
    match currentUser with
    | none => handleUnauthorized none
    | some u =>
      let hasAccess1 :=
        match data.roles with
        | some rs => if rs.length > 0 then hasAnyRole (some u.role) rs else false
        | none => false
      let hasAccess :=
        match data.role with
        | some r => hasRole (some u.role) r
        | none => hasAccess1
      if hasAccess then ⟨true, none, none⟩
      else handleUnauthorized (some u.role)

/-! ## TTL cache (src/app/services/shared/cache.service.ts)

`Map<string, ...>` is embedded as an association list in insertion order
(`Map.set` on an existing key keeps its position), `Date.now()` is the
explicit `now : Int` (milliseconds), and each `BehaviorSubject` in
`cacheSubjects` is represented by its last pushed value. -/

/-- JavaScript `Map.get`: first (unique) binding of the key, if any. -/
def mapGet {α : Type} (l : List (String × α)) (k : String) : Option α :=
  match l with
  | [] => none
  | (k₁, v) :: rest => if k₁ = k then some v else mapGet rest k

/-- JavaScript `Map.set`: replace in place when the key exists, else append. -/
def mapSet {α : Type} (l : List (String × α)) (k : String) (v : α) :
    List (String × α) :=
  match l with
  | [] => [(k, v)]
  | (k₁, v₁) :: rest =>
    if k₁ = k then (k, v) :: rest else (k₁, v₁) :: mapSet rest k v

/-- JavaScript `Map.delete`: drop the key's binding. -/
def mapDelete {α : Type} (l : List (String × α)) (k : String) :
    List (String × α) :=
  match l with
  | [] => []
  | (k₁, v₁) :: rest =>
    if k₁ = k then mapDelete rest k else (k₁, v₁) :: mapDelete rest k

/-- JavaScript `Map.has`. -/
def mapHas {α : Type} (l : List (String × α)) (k : String) : Bool :=
  (mapGet l k).isSome

/-- `CacheItem<T>` (cache.service.ts lines 5-10): value, `Date.now()`
timestamp, optional absolute expiry in ms, and the key. -/
structure CacheItem (T : Type) where
  data : T
  timestamp : Int
  expiry : Option Int
  key : String
deriving DecidableEq, Repr

/-- State of a `CacheService` instance: the entry map and, for each watched
key, the last value pushed on its `BehaviorSubject` (null = `none`). -/
structure CacheState (T : Type) where
  cache : List (String × CacheItem T)
  subjects : List (String × Option T)
deriving DecidableEq, Repr

/-- `private defaultTTL = 5 * 60 * 1000`. -/
def defaultTTL : Int := 5 * 60 * 1000

/-- `CacheService.isExpired` (lines 332-338): `if (!item.expiry) return
false` treats an absent (or zero, by truthiness) expiry as never expiring;
otherwise expired iff `Date.now() > item.expiry` strictly. -/
def isExpired {T : Type} (now : Int) (item : CacheItem T) : Bool :=
  match item.expiry with
  | none => false
  | some e => if e = 0 then false else decide (now > e)

/-- `CacheService.delete` (lines 95-104): remove the entry and, when it was
present and the key is watched, push null on its subject. Returns the new
state and the `deleted` boolean. -/
def cacheDelete {T : Type} (st : CacheState T) (k : String) :
    CacheState T × Bool :=
  let present := mapHas st.cache k
  let subjects :=
    if present && mapHas st.subjects k then mapSet st.subjects k none
    else st.subjects
  (⟨mapDelete st.cache k, subjects⟩, present)

/-- `CacheService.get` (lines 36-50): return the value when present and not
expired; an expired entry is deleted on the spot (lazy eviction) and null is
returned. The pair carries the possibly changed state. -/
def cacheGet {T : Type} (st : CacheState T) (k : String) (now : Int) :
    Option T × CacheState T :=
  match mapGet st.cache k with
  | none => (none, st)
  | some item =>
    if isExpired now item then (none, (cacheDelete st k).1)
    else (some item.data, st)

/-- `CacheService.has` (lines 77-90): same expiry check and lazy eviction as
`get`, returning a boolean. -/
def cacheHas {T : Type} (st : CacheState T) (k : String) (now : Int) :
    Bool × CacheState T :=
  match mapGet st.cache k with
  | none => (false, st)
  | some item =>
    if isExpired now item then (false, (cacheDelete st k).1)
    else (true, st)

/-- `CacheService.set` (lines 55-72). `options.ttl || this.defaultTTL`
replaces both an absent and a zero ttl by the default (JavaScript `||` on a
falsy number); `expiry` is `now + ttl` when `ttl > 0`, else absent. Watched
keys get the new value pushed on their subject. -/
def cacheSet {T : Type} (st : CacheState T) (k : String) (v : T)
    (ttlOpt : Option Int) (now : Int) : CacheState T :=
  let ttl := match ttlOpt with
             | some t => if t = 0 then defaultTTL else t
             | none => defaultTTL
  let expiry := if ttl > 0 then some (now + ttl) else none
  let item : CacheItem T := ⟨v, now, expiry, k⟩
  let subjects :=
    if mapHas st.subjects k then mapSet st.subjects k (some v)
    else st.subjects
  ⟨mapSet st.cache k item, subjects⟩

/-- `CacheService.clear` (lines 109-116): empty the map and push null on
every subject in `cacheSubjects`. -/
def cacheClear {T : Type} (st : CacheState T) : CacheState T :=
  ⟨[], st.subjects.map (fun p => (p.1, none))⟩

/-- `CacheService.keys` (lines 128-130): `Array.from(this.cache.keys())`. -/
def cacheKeys {T : Type} (st : CacheState T) : List String :=
  st.cache.map Prod.fst

/-- `CacheService.watch` (lines 185-192): create the key's subject seeded
with `this.get(key)` when missing (which may lazily evict an expired
entry), then hand out the subject's stream. -/
def cacheWatch {T : Type} (st : CacheState T) (k : String) (now : Int) :
    CacheState T :=
  if mapHas st.subjects k then st
  else
    let r := cacheGet st k now
    ⟨r.2.cache, mapSet r.2.subjects k r.1⟩

/-! ## Loading indicator (src/app/services/core/loading.service.ts) -/

/-- State of `LoadingService`: the private counter and the last value pushed
on `loadingSubject` (initially `false`). -/
structure LoadState where
  counter : Nat
  visible : Bool
deriving DecidableEq, Repr

/-- `LoadingService.show` (lines 20-25): increment; push `true` only when
the counter just became 1. -/
def loadShow (s : LoadState) : LoadState :=
  let c := s.counter + 1
  ⟨c, if c = 1 then true else s.visible⟩

/-- `LoadingService.hide` (lines 30-38): decrement only when positive; push
`false` whenever the counter is 0 afterwards. -/
def loadHide (s : LoadState) : LoadState :=
  let c := if s.counter > 0 then s.counter - 1 else s.counter
  ⟨c, if c = 0 then false else s.visible⟩

/-- `LoadingService.isLoading` (lines 51-53): the subject's current value. -/
def isLoading (s : LoadState) : Bool :=
  s.visible

/-- A call to the service: `show()` or `hide()`. -/
inductive LoadOp
| opShow
| opHide
deriving DecidableEq, Repr

/-- One call applied to the state. -/
def loadStep (s : LoadState) : LoadOp → LoadState
| LoadOp.opShow => loadShow s
| LoadOp.opHide => loadHide s

/-- The state after a call sequence, from the initial state
(counter 0, subject `false`). -/
def loadRun (ops : List LoadOp) : LoadState :=
  ops.foldl loadStep ⟨0, false⟩

/-- Number of `show()` calls in a sequence. -/
def countShows (ops : List LoadOp) : Nat :=
  (ops.filter (fun o => o == LoadOp.opShow)).length

/-- Number of `hide()` calls in a sequence. -/
def countHides (ops : List LoadOp) : Nat :=
  (ops.filter (fun o => o == LoadOp.opHide)).length

/-- `hide()` never outnumbers `show()` in any prefix of the sequence
(`ops.inits` enumerates exactly the prefixes of `ops`). -/
def balancedInits (ops : List LoadOp) : Prop :=
  ∀ p ∈ ops.inits, countHides p ≤ countShows p

/-! ## Resource-client error mapping
(class/grade/subject/student/teacher services) -/

/-- What a resource client's `handleError` rethrows: a fresh normalized
`Error(message)`, or the raw transport error unchanged (`throw error`). -/
inductive ErrOut
| normalized (msg : String)
| raw (e : HttpErr)
deriving DecidableEq, Repr

/-- Whether the rethrown error is a normalized `Error` (not the raw one). -/
def ErrOut.isNormalized : ErrOut → Bool
| normalized _ => true
| raw _ => false

/-- The display message carried, for a normalized error. -/
def ErrOut.displayMessage : ErrOut → Option String
| normalized msg => some msg
| raw _ => none

/-- The message cascade shared verbatim by SubjectService (subject.service.ts
lines 181-194), StudentService (subject.service.ts lines 439-452) and
TeacherService (teacher.service.ts lines 298-311): body `error` field, else
body `message` field, else top-level `message`, else a generic default, each
guard being JavaScript truthiness. -/
def cascadeMessage (e : HttpErr) : String :=
  if strTruthy e.bodyError then e.bodyError.getD ""
  else if strTruthy e.bodyMessage then e.bodyMessage.getD ""
  else if !e.message.isEmpty then e.message
  else "Une erreur est survenue"

/-- `SubjectService.handleError`: `throwError(() => new Error(errorMessage))`. -/
def subjectHandleError (e : HttpErr) : ErrOut :=
  ErrOut.normalized (cascadeMessage e)

/-- `StudentService.handleError` (same cascade, rethrows a fresh `Error`). -/
def studentHandleError (e : HttpErr) : ErrOut :=
  ErrOut.normalized (cascadeMessage e)

/-- `TeacherService.handleError` (same cascade, rethrows a fresh `Error`). -/
def teacherHandleError (e : HttpErr) : ErrOut :=
  ErrOut.normalized (cascadeMessage e)

/-- The `errorMessage` computed by `ClassService.handleError`
(class.service.ts lines 313-342): static switch on the HTTP status, falling
back to the body `error` field and then a generic default; the 422 branch is
`error.error?.error || 'Données invalides.'`. -/
def classMessage (e : HttpErr) : String :=
  if e.isClientEvent then "Erreur: " ++ e.clientEventMessage
  else if e.status = 401 then "Session expirée. Veuillez vous reconnecter."
  else if e.status = 403 then "Accès non autorisé."
  else if e.status = 404 then "Classe non trouvée."
  else if e.status = 409 then "Une classe avec ce nom existe déjà."
  else if e.status = 422 then
    (if strTruthy e.bodyError then e.bodyError.getD ""
     else "Données invalides.")
  else if e.status = 500 then "Erreur interne du serveur."
  else if strTruthy e.bodyError then e.bodyError.getD ""
  else "Une erreur est survenue"

/-- `ClassService.handleError`: `throwError(() => new Error(errorMessage))`. -/
def classHandleError (e : HttpErr) : ErrOut :=
  ErrOut.normalized (classMessage e)

/-- `GradeService.handleError` (grade.service.ts lines 422-425):
`console.error(...); throw error;` — the raw transport error is rethrown
unchanged, with no normalization. -/
def gradeHandleError (e : HttpErr) : ErrOut :=
  ErrOut.raw e

/-! ## Grade appreciation (src/app/services/api/grade.service.ts lines 270-278) -/

/-- `GradeService.getAppreciation`: `'CA'` for grades above 10, `'CANT'` for
grades between 7 and 10 inclusive, `'NC'` otherwise. Grades are numbers,
modelled as `Rat`. -/
def getAppreciation (grade : Rat) : String :=
  if grade > 10 then "CA"
  else if grade ≥ 7 ∧ grade ≤ 10 then "CANT"
  else "NC"

/-! ## Sample data used to instantiate hypotheses -/

/-- A sample token decoder: only the token `"A.B"` decodes, to a payload
with a numeric `exp` claim of 2000000000 seconds. -/
def decodeSample : String → Option JWTPayload :=
  fun t => if t = "A.B" then some ⟨some 2000000000⟩ else none

/-! ## Helper lemmas -/

/-- Reading back the key just written by `Map.set`. -/
theorem mapGet_mapSet_self {α : Type} (l : List (String × α)) (k : String)
    (v : α) : mapGet (mapSet l k v) k = some v := by
  induction l with
  | nil => simp [mapSet, mapGet]
  | cons p rest ih =>
    rcases p with ⟨k₁, v₁⟩
    by_cases hk : k₁ = k <;> simp [mapSet, mapGet, hk, ih]

/-- Reading the key just removed by `Map.delete`. -/
theorem mapGet_mapDelete_self {α : Type} (l : List (String × α))
    (k : String) : mapGet (mapDelete l k) k = none := by
  induction l with
  | nil => rfl
  | cons p rest ih =>
    rcases p with ⟨k₁, v₁⟩
    by_cases hk : k₁ = k <;> simp [mapDelete, mapGet, hk, ih]

/-- Overwriting every subject value with null, as `clear()` does, keyed
lookup view. -/
theorem mapGet_map_none {T : Type} (l : List (String × Option T))
    (k : String) :
    mapGet (l.map (fun p => (p.1, (none : Option T)))) k
      = Option.map (fun _ => (none : Option T)) (mapGet l k) := by
  induction l with
  | nil => rfl
  | cons p rest ih =>
    rcases p with ⟨k₁, v₁⟩
    by_cases hk : k₁ = k <;> simp [mapGet, hk, ih]

/-- `get` on a present, unexpired entry returns its data and leaves the
state unchanged. -/
theorem cacheGet_not_expired {T : Type} (st : CacheState T) (k : String)
    (now : Int) (item : CacheItem T) (h : mapGet st.cache k = some item)
    (hne : isExpired now item = false) :
    cacheGet st k now = (some item.data, st) := by
  unfold cacheGet
  rw [h]
  simp [hne]

/-- `get` on a present but expired entry returns null and deletes it. -/
theorem cacheGet_expired {T : Type} (st : CacheState T) (k : String)
    (now : Int) (item : CacheItem T) (h : mapGet st.cache k = some item)
    (he : isExpired now item = true) :
    cacheGet st k now = (none, (cacheDelete st k).1) := by
  unfold cacheGet
  rw [h]
  simp [he]

/-- `has` on a present but expired entry returns false. -/
theorem cacheHas_expired {T : Type} (st : CacheState T) (k : String)
    (now : Int) (item : CacheItem T) (h : mapGet st.cache k = some item)
    (he : isExpired now item = true) :
    cacheHas st k now = (false, (cacheDelete st k).1) := by
  unfold cacheHas
  rw [h]
  simp [he]

/-- Unfolding of `set` with `ttl = 0`: the `||` default kicks in and the
entry is stamped to expire `defaultTTL` milliseconds from now. -/
theorem cacheSet_ttl_zero {T : Type} (st : CacheState T) (k : String)
    (v : T) (t : Int) :
    cacheSet st k v (some 0) t
      = ⟨mapSet st.cache k ⟨v, t, some (t + 300000), k⟩,
         if mapHas st.subjects k then mapSet st.subjects k (some v)
         else st.subjects⟩ := by
  rfl

/-- The loading subject's value equals `counter > 0` after each call,
propagated along a fold from any state satisfying the invariant. -/
theorem loadFold_visible (ops : List LoadOp) (s : LoadState)
    (h : s.visible = decide (0 < s.counter)) :
    (ops.foldl loadStep s).visible
      = decide (0 < (ops.foldl loadStep s).counter) := by
  induction ops generalizing s with
  | nil => simpa using h
  | cons o rest ih =>
    rw [List.foldl_cons]
    apply ih
    cases o with
    | opShow =>
      by_cases hc : s.counter + 1 = 1
      · simp [loadStep, loadShow, hc, h]
      · simp [loadStep, loadShow, hc, h]
        omega
    | opHide =>
      by_cases hp : s.counter > 0
      · by_cases hz : s.counter - 1 = 0
        · simp [loadStep, loadHide, hp, hz, h]
        · simp [loadStep, loadHide, hp, hz, h]
          omega
      · simp [loadStep, loadHide, hp, h]

/-- A truthy optional string is present and nonempty. -/
theorem strTruthy_getD_ne_empty (o : Option String)
    (h : strTruthy o = true) : o.getD "" ≠ "" := by
  cases o with
  | none => simp [strTruthy] at h
  | some s =>
    simp [strTruthy] at h
    show s ≠ ""
    intro heq
    rw [heq] at h
    exact absurd h (by decide)

/-- The shared subject/student/teacher message cascade never yields an
empty display message. -/
theorem cascadeMessage_ne_empty (e : HttpErr) : cascadeMessage e ≠ "" := by
  unfold cascadeMessage
  split_ifs with h1 h2 h3
  · exact strTruthy_getD_ne_empty _ h1
  · exact strTruthy_getD_ne_empty _ h2
  · intro heq
    rw [heq] at h3
    exact absurd h3 (by decide)
  · decide

/-- A string with the nonempty literal prefix used in the client-event
branch is nonempty. -/
theorem erreur_append_ne_empty (m : String) : ("Erreur: " ++ m) ≠ "" := by
  intro h
  have h2 := congrArg String.length h
  rw [String.length_append] at h2
  have h3 : ("Erreur: ").length = 8 := rfl
  have h4 : ("" : String).length = 0 := rfl
  rw [h3, h4] at h2
  omega

/-- `ClassService`'s message is never empty either. -/
theorem classMessage_ne_empty (e : HttpErr) : classMessage e ≠ "" := by
  unfold classMessage
  split_ifs with h1 h2 h3 h4 h5 h6 h7 h8 h9
  · exact erreur_append_ne_empty _
  · decide
  · decide
  · decide
  · decide
  · exact strTruthy_getD_ne_empty _ h7
  · decide
  · decide
  · exact strTruthy_getD_ne_empty _ h9
  · decide

/-! ## Claim theorems -/

/-- C1: `isAuthenticated()` returns true iff a token is present in storage
and its decoded payload has a numeric `exp` claim strictly greater than the
current time in seconds; in particular every token whose expiry is at or
before now yields false and every well-formed token whose expiry is strictly
after now yields true. Stated for any decoder that rejects the empty string
(as `decodeJWT` does: `''.split('.')[1]` is undefined and the `catch` fires)
and any nonnegative clock reading (`Date.now()` is nonnegative). -/
theorem isAuthenticated_iff_unexpired_token
    (decode : String → Option JWTPayload) (storedToken : Option String)
    (now : Rat) (hnow : 0 ≤ now) (hdec : decode "" = none) :
    isAuthenticated decode storedToken now = true ↔
      ∃ t p e, storedToken = some t ∧ decode t = some p ∧
        p.exp = some e ∧ now < e := by
  unfold isAuthenticated hasValidToken
  cases storedToken with
  | none => simp
  | some t =>
    by_cases he : t.isEmpty = true
    · have ht : t = "" := (String.isEmpty_iff t).mp he
      subst ht
      simp [he, hdec]
    · cases hd : decode t with
      | none => simp [he, hd]
      | some p =>
        cases hexp : p.exp with
        | none => simp [he, hd, hexp]
        | some e =>
          simp [he, hd, hexp]
          intro hlt
          exact ne_of_gt (lt_of_le_of_lt hnow hlt)

/-- Witness for C1: a fresh token with expiry 2000000000 s checked at time
1000000000 s authenticates. -/
theorem isAuthenticated_iff_unexpired_token_witness :
    isAuthenticated decodeSample (some "A.B") 1000000000 = true :=
  (isAuthenticated_iff_unexpired_token decodeSample (some "A.B") 1000000000
      (by norm_num) (by decide)).mpr
    ⟨"A.B", ⟨some 2000000000⟩, 2000000000, rfl, by decide, rfl, by norm_num⟩

/-- C2: any malformed token — one `decodeJWT` fails on (not a decodable
base64url JWT payload or not valid JSON), or one whose payload lacks a
numeric `exp` claim — makes `isAuthenticated()` return false; the decode
failure is caught inside `hasValidToken` and mapped to false, and the
embedding being a total `Bool`-valued function reflects that no exception
escapes the session boundary. -/
theorem isAuthenticated_malformed_false
    (decode : String → Option JWTPayload) (t : String) (now : Rat)
    (h : decode t = none ∨ ∃ p, decode t = some p ∧ p.exp = none) :
    isAuthenticated decode (some t) now = false := by
  unfold isAuthenticated hasValidToken
  by_cases he : t.isEmpty = true
  · simp [he]
  · rcases h with hd | ⟨p, hd, hexp⟩
    · simp [he, hd]
    · simp [he, hd, hexp]

/-- Witness for C2: the undecodable token string `"junk"` does not
authenticate. -/
theorem isAuthenticated_malformed_false_witness :
    isAuthenticated decodeSample (some "junk") 5 = false :=
  isAuthenticated_malformed_false decodeSample "junk" 5 (Or.inl (by decide))

/-- C3: on a successful response `login` stores the returned token and user
(localStorage), pushes the user on `currentUserSubject` and `true` on
`isAuthenticatedSubject`, and delivers the response; on any failed response
the stored token, stored user and both subjects are left unchanged and the
error (as mapped by `AuthService.handleError`) is surfaced to the caller. -/
theorem login_success_stores_failure_preserves (st : AuthState)
    (resp : LoginResponse) (e : HttpErr) :
    ((login st (Except.ok resp)).1.storedToken = some resp.access_token
      ∧ (login st (Except.ok resp)).1.storedUser = some resp.user
      ∧ (login st (Except.ok resp)).1.currentUser = some resp.user
      ∧ (login st (Except.ok resp)).1.isAuthEmitted = true
      ∧ (login st (Except.ok resp)).2 = Except.ok resp)
    ∧ ((login st (Except.error e)).1 = st
      ∧ (login st (Except.error e)).2 = Except.error (authHandleError e)) :=
  ⟨⟨rfl, rfl, rfl, rfl, rfl⟩, rfl, rfl⟩

/-- C10: for every numeric grade, `getAppreciation` returns exactly one of
the three strings: `'CA'` iff the grade is strictly above 10, `'CANT'` iff
it lies in the closed interval [7, 10] (the boundary 10 yields `'CANT'`,
not `'CA'`), and `'NC'` exactly for grades strictly below 7, including all
negative values. -/
theorem getAppreciation_cases (g : Rat) :
    (getAppreciation g = "CA" ↔ 10 < g)
    ∧ (getAppreciation g = "CANT" ↔ 7 ≤ g ∧ g ≤ 10)
    ∧ (getAppreciation g = "NC" ↔ g < 7) := by
  unfold getAppreciation
  split_ifs with h1 h2
  · refine ⟨⟨fun _ => h1, fun _ => rfl⟩, ?_, ?_⟩
    · constructor
      · intro h
        exact absurd h (by decide)
      · rintro ⟨-, h10⟩
        exact absurd h1 (not_lt.mpr h10)
    · constructor
      · intro h
        exact absurd h (by decide)
      · intro h7
        exact absurd h1 (not_lt.mpr (le_of_lt (lt_trans h7 (by norm_num))))
  · refine ⟨?_, ⟨fun _ => h2, fun _ => rfl⟩, ?_⟩
    · constructor
      · intro h
        exact absurd h (by decide)
      · intro h10
        exact absurd h10 h1
    · constructor
      · intro h
        exact absurd h (by decide)
      · intro h7
        exact absurd h7 (not_lt.mpr h2.1)
  · push_neg at h1 h2
    have h7 : g < 7 := by
      by_contra hge
      push_neg at hge
      exact absurd (h2 hge) (not_lt.mpr h1)
    exact ⟨⟨fun h => absurd h (by decide), fun h10 => absurd h10 (not_lt.mpr h1)⟩,
      ⟨fun h => absurd h (by decide),
        fun hc => absurd h7 (not_lt.mpr hc.1)⟩,
      ⟨fun _ => h7, fun _ => rfl⟩⟩

/-- C4 counterexample: the functional `authGuard` wired to every restricted
route in `app.routes.ts`, invoked unauthenticated on the admin route, does
deny (false) and redirect to `/login`, but writes nothing to
`sessionStorage['redirectUrl']` — refuting the claim's conjunct that the
attempted URL is stored. -/
theorem authGuard_does_not_store_url :
    (authGuardRun false none [Role.admin]).allowed = false
    ∧ (authGuardRun false none [Role.admin]).navigateTo = some ["/login"]
    ∧ (authGuardRun false none [Role.admin]).storedRedirectUrl = none := by
  decide

/-- C4 amended: while unauthenticated, every restricted navigation is denied
and redirected to the login page; the attempted URL is stored for post-login
redirection by the class-based `AuthGuard.checkAuth` (when a nonempty URL is
supplied, as `canActivate` does), but the functional `authGuard` used by
`app.routes.ts` denies and redirects without storing the URL. -/
theorem guard_unauthenticated_denies
    (url : String) (userRole : Option Role) (expectedRoles : List Role)
    (hurl : ¬url.isEmpty = true) :
    checkAuth false (some url)
        = ⟨false, some ["/login"], some url⟩
    ∧ authGuardRun false userRole expectedRoles
        = ⟨false, some ["/login"], none⟩ := by
  constructor
  · simp [checkAuth, hurl]
  · rfl

/-- Witness for C4 (amended): the attempted URL `/admin` while logged out. -/
theorem guard_unauthenticated_denies_witness :
    checkAuth false (some "/admin")
        = ⟨false, some ["/login"], some "/admin"⟩
    ∧ authGuardRun false (some Role.student) [Role.admin]
        = ⟨false, some ["/login"], none⟩ :=
  guard_unauthenticated_denies "/admin" (some Role.student) [Role.admin]
    (by decide)

/-- C5: an authenticated session whose current user has role `student`, on a
route whose declared allow-list is `['admin']` (and no single-role datum),
is denied by `RoleGuard.checkRole` and redirected — concretely to the
student dashboard chosen by `handleUnauthorized`. -/
theorem roleGuard_denies_student_on_admin_route
    (u : User) (url : String) (hr : u.role = Role.student) :
    (checkRole true (some u) ⟨some [Role.admin], none⟩ url).allowed = false
    ∧ (checkRole true (some u) ⟨some [Role.admin], none⟩ url).navigateTo
        = some ["/student/dashboard"] := by
  rcases u with ⟨i, un, em, r, a⟩
  have hr2 : r = Role.student := hr
  subst hr2
  exact ⟨rfl, rfl⟩

/-- Witness for C5: a concrete student user attempting the admin route. -/
theorem roleGuard_denies_student_on_admin_route_witness :
    (checkRole true (some ⟨1, "s", "s@x", Role.student, true⟩)
        ⟨some [Role.admin], none⟩ "/admin").allowed = false
    ∧ (checkRole true (some ⟨1, "s", "s@x", Role.student, true⟩)
        ⟨some [Role.admin], none⟩ "/admin").navigateTo
        = some ["/student/dashboard"] :=
  roleGuard_denies_student_on_admin_route ⟨1, "s", "s@x", Role.student, true⟩
    "/admin" rfl

/-- C6 counterexample: `set(k, v, ttl=0)` at time 0 and `get(k)` at time
1 ms — i.e. after the given ttl of 0 ms has elapsed — still returns the
value, not null: `options.ttl || this.defaultTTL` treats the falsy ttl 0 as
unset and stamps the entry with the 5-minute default instead. -/
theorem cacheGet_after_ttl0_not_null :
    (cacheGet (cacheSet (⟨[], []⟩ : CacheState Nat) "k" 7 (some 0) 0)
        "k" 1).1 = some 7 := by
  decide

/-- C6 amended: `set(k, v, ttl=0)` falls back to the default TTL of
300000 ms (5 minutes), because JavaScript `||` treats the ttl 0 as unset.
An immediate `get(k)` returns `v`; once strictly more than 300000 ms have
elapsed, `get(k)` returns null and `has(k)` returns false, and the expired
entry is evicted from the map by that read. Stated at any nonnegative set
time (so the computed expiry is itself nonzero, hence not falsy). -/
theorem cacheSet_ttl0_defaults_to_5min {T : Type} (st : CacheState T)
    (k : String) (v : T) (t d : Int) (ht : 0 ≤ t) (hd : 300000 < d) :
    (cacheGet (cacheSet st k v (some 0) t) k t).1 = some v
    ∧ (cacheGet (cacheSet st k v (some 0) t) k (t + d)).1 = none
    ∧ (cacheHas (cacheSet st k v (some 0) t) k (t + d)).1 = false
    ∧ mapGet (cacheGet (cacheSet st k v (some 0) t) k (t + d)).2.cache k
        = none := by
  rw [cacheSet_ttl_zero]
  set item : CacheItem T := ⟨v, t, some (t + 300000), k⟩ with hitem
  have hget : mapGet (mapSet st.cache k item) k = some item :=
    mapGet_mapSet_self st.cache k item
  have hfresh : isExpired t item = false := by
    rw [hitem]
    unfold isExpired
    have hz : ¬(t + 300000 = 0) := by omega
    simp [hz]
  have hstale : isExpired (t + d) item = true := by
    rw [hitem]
    unfold isExpired
    have hz : ¬(t + 300000 = 0) := by omega
    simp [hz]
    omega
  refine ⟨?_, ?_, ?_, ?_⟩
  · rw [cacheGet_not_expired _ k t item hget hfresh]
  · rw [cacheGet_expired _ k (t + d) item hget hstale]
  · rw [cacheHas_expired _ k (t + d) item hget hstale]
  · rw [cacheGet_expired _ k (t + d) item hget hstale]
    exact mapGet_mapDelete_self _ k

/-- Witness for C6 (amended): a concrete entry set with ttl 0 at time 0,
read back at once and again 300001 ms later. -/
theorem cacheSet_ttl0_defaults_to_5min_witness :
    (cacheGet (cacheSet (⟨[], []⟩ : CacheState Nat) "k" 5 (some 0) 0)
        "k" 0).1 = some 5
    ∧ (cacheGet (cacheSet (⟨[], []⟩ : CacheState Nat) "k" 5 (some 0) 0)
        "k" (0 + 300001)).1 = none
    ∧ (cacheHas (cacheSet (⟨[], []⟩ : CacheState Nat) "k" 5 (some 0) 0)
        "k" (0 + 300001)).1 = false
    ∧ mapGet (cacheGet (cacheSet (⟨[], []⟩ : CacheState Nat) "k" 5 (some 0) 0)
        "k" (0 + 300001)).2.cache "k" = none :=
  cacheSet_ttl0_defaults_to_5min (⟨[], []⟩ : CacheState Nat) "k" 5 0 300001
    (by norm_num) (by norm_num)

/-- C7: after `clear()` the key set is empty, and every key that had an
active `watch` subject (hence active subscribers) holds a freshly pushed
null emission. -/
theorem cacheClear_empties_and_notifies {T : Type} (st : CacheState T)
    (k : String) :
    cacheKeys (cacheClear st) = []
    ∧ (mapHas st.subjects k = true →
        mapGet (cacheClear st).subjects k = some none) := by
  constructor
  · rfl
  · intro h
    show mapGet (st.subjects.map (fun p => (p.1, none))) k = some none
    rw [mapGet_map_none]
    unfold mapHas at h
    cases hg : mapGet st.subjects k with
    | none => rw [hg] at h; simp at h
    | some v => simp

/-- Witness for C7: clearing a cache with one entry and one watched key. -/
theorem cacheClear_empties_and_notifies_witness :
    cacheKeys (cacheClear (⟨[("a", ⟨3, 0, none, "a"⟩)], [("w", some 5)]⟩
        : CacheState Nat)) = []
    ∧ (mapHas ([("w", some 5)] : List (String × Option Nat)) "w" = true →
        mapGet (cacheClear (⟨[("a", ⟨3, 0, none, "a"⟩)], [("w", some 5)]⟩
          : CacheState Nat)).subjects "w" = some none) :=
  cacheClear_empties_and_notifies
    (⟨[("a", ⟨3, 0, none, "a"⟩)], [("w", some 5)]⟩ : CacheState Nat) "w"

/-- C8 counterexample: `GradeService.handleError` rethrows the raw transport
error unchanged (`console.error(...); throw error;`), so a transport failure
through GradeService does not surface as a normalized display-ready error —
refuting the claim that every resource client normalizes. -/
theorem gradeService_rethrows_raw :
    (gradeHandleError ⟨false, "", 500, none, none, "Http failure"⟩).isNormalized
      = false := by
  decide

/-- C8 amended: the class, subject, student and teacher resource clients
catch every transport failure and rethrow a normalized `Error` carrying a
nonempty display-ready message, while `GradeService.handleError` rethrows
the raw transport error unchanged. -/
theorem resource_clients_error_mapping (e : HttpErr) :
    (∃ m, subjectHandleError e = ErrOut.normalized m ∧ m ≠ "")
    ∧ (∃ m, studentHandleError e = ErrOut.normalized m ∧ m ≠ "")
    ∧ (∃ m, teacherHandleError e = ErrOut.normalized m ∧ m ≠ "")
    ∧ (∃ m, classHandleError e = ErrOut.normalized m ∧ m ≠ "")
    ∧ gradeHandleError e = ErrOut.raw e :=
  ⟨⟨cascadeMessage e, rfl, cascadeMessage_ne_empty e⟩,
   ⟨cascadeMessage e, rfl, cascadeMessage_ne_empty e⟩,
   ⟨cascadeMessage e, rfl, cascadeMessage_ne_empty e⟩,
   ⟨classMessage e, rfl, classMessage_ne_empty e⟩,
   rfl⟩

/-- C9: from counter 0 and indicator off, along any finite sequence of
`show()`/`hide()` calls in which `hide()` never outnumbers `show()` in any
prefix, the indicator `isLoading()` equals `counter > 0` after every call
(every prefix `p` of the sequence, `ops.inits` being exactly the prefixes);
hence overlapping requests keep the indicator visible until the last
matching `hide()`. -/
theorem loading_indicator_refcount (ops p : List LoadOp)
    (_hb : balancedInits ops) (_hp : p ∈ ops.inits) :
    isLoading (loadRun p) = decide (0 < (loadRun p).counter) :=
  loadFold_visible p ⟨0, false⟩ rfl

/-- Witness for C9: two overlapping requests, checked after the first
`hide()` — the indicator is still on. -/
theorem loading_indicator_refcount_witness :
    isLoading (loadRun [LoadOp.opShow, LoadOp.opShow, LoadOp.opHide])
      = decide (0 <
          (loadRun [LoadOp.opShow, LoadOp.opShow, LoadOp.opHide]).counter) :=
  loading_indicator_refcount
    [LoadOp.opShow, LoadOp.opShow, LoadOp.opHide, LoadOp.opHide]
    [LoadOp.opShow, LoadOp.opShow, LoadOp.opHide]
    (by unfold balancedInits; decide) (by decide)

end GestionNotes
